import Mathlib

/-!
# Verification of the ynca protocol client against its specification

Shallow embedding of the ynca repository's protocol engine
(`src/ynca/connection.py`), connection wrapper, and the subunit /
zone property layer, together with theorems settling the spec claims.

Conventions:
* Python strings are Lean `String`; `None` is `Option.none`.
* `re.match` with the pattern `@(?P<subunit>.+?):(?P<function>.+?)=(?P<value>.*)`
  is embedded as `matchYncaLine` below (lazy groups, `.` not matching a
  newline, unanchored tail).
* The Python `TypeError` raised by `re.match(pattern, None)` is embedded
  as the `Except.error` branch of `handle_line`.
-/

namespace Ynca

/-- Status classification of an incoming line
(`YncaProtocolStatus` in `src/ynca/connection.py`). -/
inductive YncaProtocolStatus where
  | OK
  | UNDEFINED
  | RESTRICTED
  deriving Repr, DecidableEq

/-- A classified incoming message as handed to the dispatch callback of
`YncaProtocol.handle_line`: the status plus the optional subunit and
function names and the value string. -/
structure Message where
  status : YncaProtocolStatus
  subunit : Option String
  function : Option String
  value : String
  deriving Repr, DecidableEq

/-- The mutable protocol-engine state that `handle_line` reads and writes:
the last command written to the wire (`_last_sent_command`, `None` until
something was sent) and the keep-alive pending flag. -/
structure ProtocolState where
  lastSentCommand : Option String
  keepAlivePending : Bool
  deriving Repr, DecidableEq

/-- Scan a character list for the first occurrence of `stop`, requiring every
character before it to be different from a newline (the regex `.` does not
match a newline).  Returns the prefix before `stop` and the suffix after it. -/
def scanTo (stop : Char) : List Char → Option (List Char × List Char)
  | [] => none
  | c :: cs =>
    if c = stop then some ([], cs)
    else if c = '\n' then none
    else (scanTo stop cs).map (fun p => (c :: p.1, p.2))

/-- Characters of the lazy group `.+?` followed by a literal `stop`: one
mandatory non-newline character, then the prefix up to the first `stop`. -/
def lazyGroupTo (stop : Char) : List Char → Option (List Char × List Char)
  | [] => none
  | c :: cs =>
    if c = '\n' then none
    else (scanTo stop cs).map (fun p => (c :: p.1, p.2))

/-- Characters matched by the trailing greedy `.*`: everything up to the
first newline (the match is unanchored at the end). -/
def greedyRest : List Char → List Char
  | [] => []
  | c :: cs => if c = '\n' then [] else c :: greedyRest cs

/-- Embedding of
`re.match(r"@(?P<subunit>.+?):(?P<function>.+?)=(?P<value>.*)", line)`
from `YncaProtocol.handle_line`: a literal `@`, a shortest nonempty
subunit group up to a `:`, a shortest nonempty function group up to a
`=`, and the rest of the line (up to a newline) as the value.
Backtracking of the lazy subunit group past its first viable `:` never
changes the outcome, because every later split either re-encounters the
same missing `=` or would force a newline into a group, so the
first-split scan below is exact. -/
def matchYncaLine (line : String) : Option (String × String × String) :=
  match line.data with
  | '@' :: rest =>
    match lazyGroupTo ':' rest with
    | none => none
    | some (subunitChars, afterColon) =>
      match lazyGroupTo '=' afterColon with
      | none => none
      | some (functionChars, afterEq) =>
        some (String.mk subunitChars, String.mk functionChars,
          String.mk (greedyRest afterEq))
  | _ => none

/-- Embedding of `YncaProtocol.handle_line` (`src/ynca/connection.py`,
lines 76-108).  Given the engine state and the received line it returns
the new state together with the message passed to the dispatch callback
(`none` when the keep-alive suppression sets `ignore`), or an error when
Python would raise a `TypeError` (a bare error line while
`_last_sent_command` is still `None`, making `re.match` receive `None`).
The `value` of an unmatched line is the original raw line, because the
Python code assigns `value = line` before substituting
`_last_sent_command` for a bare error line. -/
def handle_line (st : ProtocolState) (line : String) :
    Except Unit (ProtocolState × Option Message) :=
  let status : YncaProtocolStatus :=
    if line = "@UNDEFINED" then .UNDEFINED
    else if line = "@RESTRICTED" then .RESTRICTED
    else .OK
  let effectiveLine : Option String :=
    if line = "@UNDEFINED" ∨ line = "@RESTRICTED" then st.lastSentCommand
    else some line
  match effectiveLine with
  | none => .error ()
  | some l =>
    match matchYncaLine l with
    | some (s, f, v) =>
      if st.keepAlivePending = true ∧ s = "SYS" ∧ f = "MODELNAME" then
        .ok (⟨st.lastSentCommand, false⟩, none)
      else
        .ok (⟨st.lastSentCommand, false⟩, some ⟨status, some s, some f, v⟩)
    | none =>
      .ok (⟨st.lastSentCommand, false⟩, some ⟨status, none, none, line⟩)


/-- Lifecycle states of a Subunit (spec section 4.4:
`Created → Initializing → Ready`). -/
inductive SubunitLifecycle where
  | Created
  | Initializing
  | Ready
  deriving Repr, DecidableEq

/-- Modelled from the spec: the `InitializationFailed` condition
(`YncaInitializationFailedException` in the tests); its definition in
`errors.py` is not under `src/`. -/
inductive InitializationFailed where
  | timeout
  deriving Repr, DecidableEq

/-- Modelled from the spec: the generic Subunit base class (`subunit.py`) is
not under `src/`, only its tests are.  Spec section 3: a Subunit owns an id,
a set of registered update callbacks (here only their number matters), the
`AVAIL` availability value, a cache mapping wire names to last received
values (absent until first update), and its lifecycle state. -/
structure SubunitModel where
  id : String
  numUpdateCallbacks : Nat
  avail : Option String
  cache : List (String × String)
  lifecycle : SubunitLifecycle
  deriving Repr, DecidableEq

/-- Modelled from the spec: during initialization each incoming matching
Message updates the cache directly (spec section 4.4 step 4); messages with
a non-OK status or addressed to another subunit are ignored; an `AVAIL`
report records the availability value. -/
def applyInitMessage (su : SubunitModel) (m : Message) : SubunitModel :=
  if m.status = .OK ∧ m.subunit = some su.id then
    match m.function with
    | some f =>
      if f = "AVAIL" then { su with avail := some m.value }
      else { su with cache := su.cache ++ [(f, m.value)] }
    | none => su
  else su

/-- Modelled from the spec: the collection loop of the Initialization
Session (spec section 4.4 steps 4-6).  It consumes the delivered messages
in order; the sentinel (a `SYS VERSION` report) ends the wait successfully
and the subunit becomes `Ready`; exhausting the deliveries without a
sentinel is the bounded timeout, which fails with `InitializationFailed`. -/
def collectInitMessages (su : SubunitModel) :
    List Message → Except InitializationFailed SubunitModel
  | [] => .error .timeout
  | m :: rest =>
    if m.subunit = some "SYS" ∧ m.function = some "VERSION" then
      .ok { su with lifecycle := .Ready }
    else
      collectInitMessages (applyInitMessage su m) rest

/-- Modelled from the spec: `initialize()` (spec section 4.4).  The subunit
enters `Initializing`, the delivered burst is collected, and the result is
returned together with the number of aggregate update notification rounds
fired to the permanently registered callbacks (each round invokes every
registered callback once): exactly one round on success (spec step 7), zero
on failure. -/
def SubunitModel.initSession (su : SubunitModel) (delivered : List Message) :
    Except InitializationFailed SubunitModel × Nat :=
  match collectInitMessages { su with lifecycle := .Initializing } delivered with
  | .ok su' => (.ok su', 1)
  | .error e => (.error e, 0)

/-- The subunit constructed by the tests in `src/tests/test_subunit.py`: id
`SUBUNIT`, with `n` permanently registered update callbacks and nothing
received yet. -/
def mkTestSubunit (n : Nat) : SubunitModel :=
  ⟨"SUBUNIT", n, none, [], .Created⟩

/-- The full, well-formed initialization burst of
`src/tests/test_subunit.py` (`INITIALIZE_FULL_RESPONSES`): the `AVAIL`
report with value `Ready`, then the sentinel `SYS VERSION` report. -/
def testSubunitInitBurst : List Message :=
  [⟨.OK, some "SUBUNIT", some "AVAIL", "Ready"⟩,
   ⟨.OK, some "SYS", some "VERSION", "Version"⟩]

/-- Round an exact rational to the nearest integer, ties away from zero. -/
def roundHalfAwayFromZero (q : ℚ) : ℤ :=
  if q < 0 then -⌊-q + 1 / 2⌋ else ⌊q + 1 / 2⌋

/-- Modelled from the spec: the volume encoder of `zone.py` is not under
`src/`, only its tests are.  Spec section 4.3: encode rounds the target to
the nearest 0.5 dB, ties away from zero.  The result is represented by its
number of half-dB steps. -/
def volHalfSteps (v : ℚ) : ℤ :=
  roundHalfAwayFromZero (2 * v)

/-- Modelled from the spec: formatting of a stepped volume with exactly one
decimal digit.  The argument is the number of half-dB steps; a whole number
of dB yields a `.0` digit and a half yields `.5`; zero never takes a minus
sign. -/
def formatHalfSteps (n : ℤ) : String :=
  (if n < 0 then "-" else "")
    ++ toString (n.natAbs / 2) ++ "."
    ++ (if n.natAbs % 2 = 0 then "0" else "5")

/-- Modelled from the spec: the wire value sent for a volume set (spec
section 4.3, stepped numeric encode). -/
def encodeVol (v : ℚ) : String :=
  formatHalfSteps (volHalfSteps v)

/-- Modelled from the spec: the wire value of the relative volume-up nudge
(`vol_up` in `zone.py`, not under `src/`).  Spec section 4.3: an optional
integer step in the allowed set 1, 2, 5 gives `Up N dB`; any other step,
or no step, falls back to the bare `Up`. -/
def volUpValue : Option ℤ → String
  | none => "Up"
  | some n =>
    if n = 1 ∨ n = 2 ∨ n = 5 then "Up " ++ toString n ++ " dB" else "Up"

/-- Modelled from the spec: the wire value of the relative volume-down
nudge (`vol_down`), symmetric to `volUpValue`. -/
def volDownValue : Option ℤ → String
  | none => "Down"
  | some n =>
    if n = 1 ∨ n = 2 ∨ n = 5 then "Down " ++ toString n ++ " dB" else "Down"

/-- Modelled from the spec: the fixed maximum length of a zone's display
name (spec section 4.3, length-bounded strings).  The tests in
`src/tests/test_zone.py` accept the 8-character name `new name` and reject
the 20-character name `new name is too long`; the protocol's bound of 9
characters lies in that interval. -/
def zonenameMaxLength : Nat := 9

/-- Modelled from the spec: the zone-name setter of `zone.py` (not under
`src/`).  It validates the length against the fixed maximum before sending:
on violation it raises (`Except.error`) and sends nothing; otherwise it
sends the name verbatim as a `ZONENAME` put on the owning Connection.  The
second component lists the commands sent. -/
def setZonename (zoneId name : String) :
    Except Unit Unit × List (String × String × String) :=
  if name.length > zonenameMaxLength then (.error (), [])
  else (.ok (), [(zoneId, "ZONENAME", name)])

/-- The state of a `YncaProtocol` instance relevant to command submission
(`src/ynca/connection.py`): the send queue contents (in order), the
monotonically increasing sent-command counter, and the connected flag. -/
structure YncaProtocolModel where
  sendQueue : List String
  numCommandsSent : Nat
  connected : Bool
  deriving Repr, DecidableEq

/-- Embedding of `YncaProtocol.put` (`src/ynca/connection.py` lines
137-139): formats the wire line, enqueues it, and increments the
sent-command counter. -/
def YncaProtocolModel.put (p : YncaProtocolModel)
    (subunit funcname parameter : String) : YncaProtocolModel :=
  { p with
    sendQueue :=
      p.sendQueue ++ ["@" ++ subunit ++ ":" ++ funcname ++ "=" ++ parameter],
    numCommandsSent := p.numCommandsSent + 1 }

/-- Embedding of `YncaProtocol.get` (`src/ynca/connection.py` lines
141-142): a `put` with value `?`. -/
def YncaProtocolModel.get (p : YncaProtocolModel)
    (subunit funcname : String) : YncaProtocolModel :=
  p.put subunit funcname "?"

/-- The state of a `YncaConnection` (`src/ynca/connection.py`): the serial
url it was created with and the optional protocol instance, which is `None`
until `connect()` has succeeded. -/
structure YncaConnectionModel where
  port : String
  protocol : Option YncaProtocolModel
  deriving Repr, DecidableEq

/-- Embedding of `YncaConnection.__init__` (`src/ynca/connection.py` lines
146-162): stores the url; `_protocol` starts out as `None`. -/
def YncaConnectionModel.mkNew (serialUrl : String) : YncaConnectionModel :=
  ⟨serialUrl, none⟩

/-- Embedding of `YncaConnection.put` (`src/ynca/connection.py` lines
202-204): silently does nothing when `_protocol` is `None`, otherwise
delegates to the protocol's `put`. -/
def YncaConnectionModel.put (c : YncaConnectionModel)
    (subunit funcname parameter : String) : YncaConnectionModel :=
  match c.protocol with
  | some p => { c with protocol := some (p.put subunit funcname parameter) }
  | none => c

/-- Embedding of `YncaConnection.get` (`src/ynca/connection.py` lines
206-208): silently does nothing when `_protocol` is `None`, otherwise
delegates to the protocol's `get`. -/
def YncaConnectionModel.get (c : YncaConnectionModel)
    (subunit funcname : String) : YncaConnectionModel :=
  match c.protocol with
  | some p => { c with protocol := some (p.get subunit funcname) }
  | none => c

/-- Embedding of the `YncaConnection.connected` property
(`src/ynca/connection.py` lines 210-212): it dereferences `_protocol`
unguarded, so before `connect()` it raises an `AttributeError`, embedded
as the error branch. -/
def YncaConnectionModel.connectedProp (c : YncaConnectionModel) :
    Except String Bool :=
  match c.protocol with
  | some p => .ok p.connected
  | none => .error "AttributeError"

/-- Embedding of the `YncaConnection.num_commands_sent` property
(`src/ynca/connection.py` lines 214-216): also an unguarded dereference of
`_protocol`. -/
def YncaConnectionModel.numCommandsSentProp (c : YncaConnectionModel) :
    Except String Nat :=
  match c.protocol with
  | some p => .ok p.numCommandsSent
  | none => .error "AttributeError"

/-- Claim C1, counterexample: a bare `@UNDEFINED` line received while the
last sent command was the keep-alive probe is dispatched with the subunit
and function resynthesized from that command, so the claim that subunit and
function are absent on every such input fails at this concrete input. -/
theorem handle_line_bare_error_counterexample :
    handle_line ⟨some "@SYS:MODELNAME=?", false⟩ "@UNDEFINED" =
      .ok (⟨some "@SYS:MODELNAME=?", false⟩,
        some ⟨.UNDEFINED, some "SYS", some "MODELNAME", "?"⟩) ∧
    (some "SYS" : Option String) ≠ none :=
  ⟨rfl, by decide⟩

/-- Claim C1, amended: on a bare `@UNDEFINED` or `@RESTRICTED` line the
engine resynthesizes the message identity from the last sent command: when
that command parses as `@SUBUNIT:FUNCTION=VALUE` and no keep-alive probe is
pending, the message forwarded to the dispatch callback carries the
corresponding error status together with the subunit, function and value of
the last sent command. -/
theorem handle_line_bare_error_resynthesizes (st : ProtocolState)
    (cmd s f v : String)
    (hcmd : st.lastSentCommand = some cmd)
    (hmatch : matchYncaLine cmd = some (s, f, v))
    (hpending : st.keepAlivePending = false) :
    handle_line st "@UNDEFINED" =
      .ok (⟨st.lastSentCommand, false⟩, some ⟨.UNDEFINED, some s, some f, v⟩) ∧
    handle_line st "@RESTRICTED" =
      .ok (⟨st.lastSentCommand, false⟩, some ⟨.RESTRICTED, some s, some f, v⟩) := by
  constructor <;>
    simp [handle_line, hcmd, hmatch, hpending]

/-- Claim C1, witness for the amended theorem at the keep-alive probe as
last sent command. -/
theorem handle_line_bare_error_resynthesizes_witness :
    handle_line ⟨some "@SYS:MODELNAME=?", false⟩ "@UNDEFINED" =
      .ok (⟨some "@SYS:MODELNAME=?", false⟩,
        some ⟨.UNDEFINED, some "SYS", some "MODELNAME", "?"⟩) ∧
    handle_line ⟨some "@SYS:MODELNAME=?", false⟩ "@RESTRICTED" =
      .ok (⟨some "@SYS:MODELNAME=?", false⟩,
        some ⟨.RESTRICTED, some "SYS", some "MODELNAME", "?"⟩) :=
  handle_line_bare_error_resynthesizes ⟨some "@SYS:MODELNAME=?", false⟩
    "@SYS:MODELNAME=?" "SYS" "MODELNAME" "?" rfl rfl rfl

/-- Claim C2, counterexample: the line `garbage` is neither a bare error
marker nor a match for the command pattern, yet `handle_line` does invoke
the dispatch callback for it, with status OK, no subunit or function, and
the raw line as the value — the claim that such lines are dropped fails at
this concrete input. -/
theorem handle_line_unmatched_counterexample :
    handle_line ⟨none, false⟩ "garbage" =
      .ok (⟨none, false⟩, some ⟨.OK, none, none, "garbage"⟩) ∧
    (some (⟨.OK, none, none, "garbage"⟩ : Message)) ≠ none :=
  ⟨rfl, by decide⟩

/-- Claim C2, amended: an incoming line that is not a bare error marker and
does not match `@SUBUNIT:FUNCTION=VALUE` is still forwarded to the dispatch
callback, with status OK, absent subunit and function, and the raw line as
the value; it is not dropped. -/
theorem handle_line_unmatched_forwarded (st : ProtocolState) (line : String)
    (hu : line ≠ "@UNDEFINED") (hr : line ≠ "@RESTRICTED")
    (hm : matchYncaLine line = none) :
    handle_line st line =
      .ok (⟨st.lastSentCommand, false⟩, some ⟨.OK, none, none, line⟩) := by
  simp [handle_line, hu, hr, hm]

/-- Claim C2, witness for the amended theorem at the line `garbage`. -/
theorem handle_line_unmatched_forwarded_witness :
    handle_line ⟨none, false⟩ "garbage" =
      .ok (⟨none, false⟩, some ⟨.OK, none, none, "garbage"⟩) :=
  handle_line_unmatched_forwarded ⟨none, false⟩ "garbage"
    (by decide) (by decide) rfl

/-- Claim C3: whenever `handle_line` completes, the keep-alive pending flag
of the resulting state is cleared, whatever the line was; and if a
keep-alive probe was pending and the received line itself parses to subunit
`SYS` and function `MODELNAME`, the line is swallowed: nothing is forwarded
to the dispatch callback.  Together these give at most one suppressed line
per outstanding probe. -/
theorem handle_line_keep_alive (st : ProtocolState) (line : String)
    (st' : ProtocolState) (m : Option Message)
    (h : handle_line st line = .ok (st', m)) :
    st'.keepAlivePending = false ∧
      (st.keepAlivePending = true →
        ∀ v, matchYncaLine line = some ("SYS", "MODELNAME", v) → m = none) := by
  by_cases hu : line = "@UNDEFINED"
  · subst hu
    rcases hls : st.lastSentCommand with _ | cmd <;>
      simp [handle_line, hls] at h
    rcases hmc : matchYncaLine cmd with _ | ⟨s, f, v⟩ <;>
      simp [hmc] at h
    · obtain ⟨h1, h2⟩ := h
      refine ⟨by rw [← h1], ?_⟩
      intro _ v hv
      rw [show matchYncaLine "@UNDEFINED" = none from rfl] at hv
      exact Option.noConfusion hv
    · by_cases hc : st.keepAlivePending = true ∧ s = "SYS" ∧ f = "MODELNAME" <;>
        simp [hc] at h <;>
        obtain ⟨h1, h2⟩ := h
      · refine ⟨by rw [← h1], ?_⟩
        intro _ v hv
        rw [show matchYncaLine "@UNDEFINED" = none from rfl] at hv
        exact Option.noConfusion hv
      · refine ⟨by rw [← h1], ?_⟩
        intro _ v hv
        rw [show matchYncaLine "@UNDEFINED" = none from rfl] at hv
        exact Option.noConfusion hv
  · by_cases hr : line = "@RESTRICTED"
    · subst hr
      rcases hls : st.lastSentCommand with _ | cmd <;>
        simp [handle_line, hls] at h
      rcases hmc : matchYncaLine cmd with _ | ⟨s, f, v⟩ <;>
        simp [hmc] at h
      · obtain ⟨h1, h2⟩ := h
        refine ⟨by rw [← h1], ?_⟩
        intro _ v hv
        rw [show matchYncaLine "@RESTRICTED" = none from rfl] at hv
        exact Option.noConfusion hv
      · by_cases hc : st.keepAlivePending = true ∧ s = "SYS" ∧ f = "MODELNAME" <;>
          simp [hc] at h <;>
          obtain ⟨h1, h2⟩ := h
        · refine ⟨by rw [← h1], ?_⟩
          intro _ v hv
          rw [show matchYncaLine "@RESTRICTED" = none from rfl] at hv
          exact Option.noConfusion hv
        · refine ⟨by rw [← h1], ?_⟩
          intro _ v hv
          rw [show matchYncaLine "@RESTRICTED" = none from rfl] at hv
          exact Option.noConfusion hv
    · rcases hmc : matchYncaLine line with _ | ⟨s, f, v⟩ <;>
        simp [handle_line, hu, hr, hmc] at h
      · obtain ⟨h1, h2⟩ := h
        refine ⟨by rw [← h1], ?_⟩
        intro _ v hv
        exact Option.noConfusion hv
      · by_cases hc : st.keepAlivePending = true ∧ s = "SYS" ∧ f = "MODELNAME" <;>
          simp [hc] at h <;>
          obtain ⟨h1, h2⟩ := h
        · exact ⟨by rw [← h1], fun _ _ _ => h2.symm⟩
        · refine ⟨by rw [← h1], ?_⟩
          intro hp v' hv
          simp only [Option.some.injEq, Prod.mk.injEq] at hv
          exact absurd ⟨hp, hv.1, hv.2.1⟩ hc

/-- Claim C3, witness: a pending probe followed by the model-name report
`@SYS:MODELNAME=RX-V473` is swallowed and the pending flag is cleared. -/
theorem handle_line_keep_alive_witness :
    (⟨some "@SYS:MODELNAME=?", false⟩ : ProtocolState).keepAlivePending = false ∧
      ((⟨some "@SYS:MODELNAME=?", true⟩ : ProtocolState).keepAlivePending = true →
        ∀ v, matchYncaLine "@SYS:MODELNAME=RX-V473" = some ("SYS", "MODELNAME", v) →
          (none : Option Message) = none) :=
  handle_line_keep_alive ⟨some "@SYS:MODELNAME=?", true⟩ "@SYS:MODELNAME=RX-V473"
    ⟨some "@SYS:MODELNAME=?", false⟩ none rfl

/-- Claim C4: if no message of any kind (not even the sentinel) is delivered
to a Subunit during the initialization window, `initialize()` fails with
`InitializationFailed` and zero update notification rounds fire to the
registered update callbacks, whatever the subunit's id, callbacks and prior
state are. -/
theorem subunit_init_no_message (su : SubunitModel) :
    su.initSession [] = (.error .timeout, 0) := rfl

/-- Claim C5: given the full, well-formed initialization burst of the tests
(the `AVAIL` report with value `Ready`, then the sentinel `SYS VERSION`
report), `initialize()` returns normally with the subunit `Ready` and
availability recorded, and fires exactly one aggregate update notification
round to the permanently registered callbacks — one round for the whole
burst, each round reaching every one of the `n` registered callbacks
once. -/
theorem subunit_init_full_burst (n : Nat) :
    (mkTestSubunit n).initSession testSubunitInitBurst =
      (.ok ⟨"SUBUNIT", n, some "Ready", [], .Ready⟩, 1) := rfl

/-- Rounding an exact rational half-away-from-zero moves it by at most one
half, the key bound behind the volume encoder's step rounding. -/
theorem abs_sub_roundHalfAwayFromZero_le (q : ℚ) :
    |q - roundHalfAwayFromZero q| ≤ 1 / 2 := by
  rw [roundHalfAwayFromZero]
  split
  · rw [abs_le]
    have h1 := Int.floor_le (-q + 1 / 2)
    have h2 := Int.lt_floor_add_one (-q + 1 / 2)
    push_cast
    constructor <;> linarith
  · rw [abs_le]
    have h1 := Int.floor_le (q + 1 / 2)
    have h2 := Int.lt_floor_add_one (q + 1 / 2)
    constructor <;> linarith

/-- A volume target of 0.4 dB rounds to one positive half step. -/
theorem volHalfSteps_two_fifths : volHalfSteps (2 / 5) = 1 := by
  rw [volHalfSteps, roundHalfAwayFromZero,
    if_neg (by norm_num : ¬(2 * (2 / 5 : ℚ) < 0))]
  rw [Int.floor_eq_iff]
  norm_num

/-- A volume target of -0.4 dB rounds to one negative half step. -/
theorem volHalfSteps_neg_two_fifths : volHalfSteps (-(2 / 5)) = -1 := by
  rw [volHalfSteps, roundHalfAwayFromZero,
    if_pos (by norm_num : 2 * (-(2 / 5) : ℚ) < 0)]
  have h : ⌊-(2 * (-(2 / 5) : ℚ)) + 1 / 2⌋ = 1 := by
    rw [Int.floor_eq_iff]
    norm_num
  rw [h]

/-- A volume target of -0.1 dB rounds to zero half steps. -/
theorem volHalfSteps_neg_tenth : volHalfSteps (-(1 / 10)) = 0 := by
  rw [volHalfSteps, roundHalfAwayFromZero,
    if_pos (by norm_num : 2 * (-(1 / 10) : ℚ) < 0)]
  have h : ⌊-(2 * (-(1 / 10) : ℚ)) + 1 / 2⌋ = 0 := by
    rw [Int.floor_eq_iff]
    norm_num
  rw [h]
  norm_num

/-- Claim C6: the volume encoder rounds the target to the nearest 0.5 dB
with ties away from zero and formats with exactly one decimal digit:
setting 0.4 sends the wire value `0.5`, setting -0.4 sends `-0.5`, and
setting -0.1 sends `0.0`; in general the encoded half-step value is within
a quarter dB of the target, so it is the nearest multiple of 0.5. -/
theorem encodeVol_spec :
    encodeVol (2 / 5) = "0.5" ∧
    encodeVol (-(2 / 5)) = "-0.5" ∧
    encodeVol (-(1 / 10)) = "0.0" ∧
    ∀ v : ℚ, |v - (volHalfSteps v : ℚ) / 2| ≤ 1 / 4 := by
  refine ⟨?_, ?_, ?_, fun v => ?_⟩
  · rw [encodeVol, volHalfSteps_two_fifths]; rfl
  · rw [encodeVol, volHalfSteps_neg_two_fifths]; rfl
  · rw [encodeVol, volHalfSteps_neg_tenth]; rfl
  · have h := abs_sub_roundHalfAwayFromZero_le (2 * v)
    rw [volHalfSteps]
    have heq : v - (roundHalfAwayFromZero (2 * v) : ℚ) / 2 =
        (2 * v - roundHalfAwayFromZero (2 * v)) / 2 := by ring
    rw [heq, abs_div]
    rw [show |(2 : ℚ)| = 2 by norm_num]
    linarith

/-- Claim C7: for every integer step, the relative volume nudges encode as
`Up N dB` and `Down N dB` exactly when the step is in the allowed set
1, 2, 5; any other step, and the stepless call, falls back to the bare
`Up` and `Down` wire values. -/
theorem vol_nudge_spec :
    volUpValue none = "Up" ∧ volDownValue none = "Down" ∧
    ∀ n : ℤ,
      ((n = 1 ∨ n = 2 ∨ n = 5) →
        volUpValue (some n) = "Up " ++ toString n ++ " dB" ∧
        volDownValue (some n) = "Down " ++ toString n ++ " dB") ∧
      (¬(n = 1 ∨ n = 2 ∨ n = 5) →
        volUpValue (some n) = "Up" ∧ volDownValue (some n) = "Down") := by
  refine ⟨rfl, rfl, fun n => ⟨fun h => ?_, fun h => ?_⟩⟩
  · rw [volUpValue, volDownValue, if_pos h, if_pos h]
    exact ⟨rfl, rfl⟩
  · rw [volUpValue, volDownValue, if_neg h, if_neg h]
    exact ⟨rfl, rfl⟩

/-- Claim C7, witness at the test steps: 5 is in the allowed set and 50
falls back to the bare command. -/
theorem vol_nudge_spec_witness :
    volUpValue (some 5) = "Up " ++ toString (5 : ℤ) ++ " dB" ∧
    volUpValue (some 50) = "Up" :=
  ⟨((vol_nudge_spec.2.2 5).1 (by norm_num)).1,
   ((vol_nudge_spec.2.2 50).2 (by norm_num)).1⟩

/-- Claim C8: setting a zone name longer than the fixed length bound is
rejected synchronously with no command sent on the Connection, while a name
within the bound is accepted and sent verbatim as a `ZONENAME` put. -/
theorem zonename_length_guard (zoneId name : String) :
    (zonenameMaxLength < name.length →
      setZonename zoneId name = (.error (), [])) ∧
    (name.length ≤ zonenameMaxLength →
      setZonename zoneId name = (.ok (), [(zoneId, "ZONENAME", name)])) := by
  constructor <;> intro h
  · rw [setZonename, if_pos h]
  · rw [setZonename, if_neg (by omega)]

/-- Claim C8, witness at the test names: the 20-character name is rejected
with nothing sent and the 8-character name is sent verbatim. -/
theorem zonename_length_guard_witness :
    setZonename "TESTZONE" "new name is too long" = (.error (), []) ∧
    setZonename "TESTZONE" "new name" =
      (.ok (), [("TESTZONE", "ZONENAME", "new name")]) :=
  ⟨(zonename_length_guard "TESTZONE" "new name is too long").1 (by decide),
   (zonename_length_guard "TESTZONE" "new name").2 (by decide)⟩

/-- Claim C9: for every subunit and function name, the Connection's `get`
is exactly `put` with value `?`: the same resulting state, which on a live
protocol means the identical wire command appended to the send queue and
the sent-command counter incremented, and on a connection without a
protocol the same silent no-op. -/
theorem connection_get_is_put_question (c : YncaConnectionModel)
    (subunit funcname : String) :
    c.get subunit funcname = c.put subunit funcname "?" ∧
    (c.protocol = none → c.get subunit funcname = c) ∧
    ∀ p, c.protocol = some p →
      c.get subunit funcname =
        ⟨c.port,
          some ⟨p.sendQueue ++ ["@" ++ subunit ++ ":" ++ funcname ++ "=" ++ "?"],
            p.numCommandsSent + 1, p.connected⟩⟩ := by
  obtain ⟨port, proto⟩ := c
  rcases proto with _ | p0
  · exact ⟨rfl, fun _ => rfl, fun p hp => Option.noConfusion hp⟩
  · refine ⟨rfl, fun h => Option.noConfusion h, fun p hp => ?_⟩
    cases Option.some_inj.mp hp
    rfl

/-- Claim C9, witness on a connected protocol with an empty queue: `get`
enqueues the keep-alive probe line and bumps the counter. -/
theorem connection_get_is_put_question_witness :
    (⟨"/dev/ttyUSB0", some ⟨[], 0, true⟩⟩ : YncaConnectionModel).get
        "SYS" "MODELNAME" =
      ⟨"/dev/ttyUSB0",
        some ⟨[] ++ ["@" ++ "SYS" ++ ":" ++ "MODELNAME" ++ "=" ++ "?"],
          0 + 1, true⟩⟩ :=
  (connection_get_is_put_question ⟨"/dev/ttyUSB0", some ⟨[], 0, true⟩⟩
    "SYS" "MODELNAME").2.2 ⟨[], 0, true⟩ rfl

/-- Claim C10: on a freshly constructed `YncaConnection`, before `connect()`
has ever succeeded, reading the `connected` or `num_commands_sent`
properties raises (the internal protocol object is still `None` and is
dereferenced unguarded), whereas `put` and `get` in the same state silently
do nothing. -/
theorem fresh_connection_accessors_raise (serialUrl : String) :
    (YncaConnectionModel.mkNew serialUrl).connectedProp =
      .error "AttributeError" ∧
    (YncaConnectionModel.mkNew serialUrl).numCommandsSentProp =
      .error "AttributeError" ∧
    ∀ subunit funcname parameter : String,
      (YncaConnectionModel.mkNew serialUrl).put subunit funcname parameter =
        YncaConnectionModel.mkNew serialUrl ∧
      (YncaConnectionModel.mkNew serialUrl).get subunit funcname =
        YncaConnectionModel.mkNew serialUrl :=
  ⟨rfl, rfl, fun _ _ _ => ⟨rfl, rfl⟩⟩

end Ynca
